import Mathlib

/-!
Shallow embedding of the FastAgent observability engine:
`src/mcp_agent/monitoring/metrics.py` (MetricsCollector, RequestTracker) and
`src/mcp_agent/monitoring/alerting.py` (ErrorTracker and its alert rules).

Modelling conventions:
* Python floats (durations, timestamps) are exact rationals.
* `time.time()` is an explicit clock argument threaded through the operations.
* Python dicts are insertion-ordered association lists (`lookupA` / `setA`);
  `defaultdict` reads use `lookupD` with the corresponding default.
* `collections.deque(maxlen = cap)` is a list whose append keeps the `cap`
  most recent entries (`dequeAppend`).
* Exceptions are records of their type name and message; `async` plumbing,
  locks, and the email/webhook delivery channels (disabled by the default
  configuration) are not modelled.
-/

namespace Europa

attribute [local semireducible] Rat.mul Rat.add Rat.sub Rat.inv

/-- Append to a `collections.deque(maxlen := cap)`: the result keeps the
`cap` most recent entries, silently discarding the oldest ones. -/
def dequeAppend (cap : Nat) (xs : List α) (a : α) : List α :=
  let ys := xs ++ [a]
  ys.drop (ys.length - cap)

/-- The `n` most recent entries of a list (suffix of length `min n len`). -/
def lastN (n : Nat) (xs : List α) : List α :=
  xs.drop (xs.length - n)

/-- Python dict lookup on an insertion-ordered association list. -/
def lookupA (m : List (String × α)) (k : String) : Option α :=
  match m with
  | [] => none
  | (k', v) :: t => if k' = k then some v else lookupA t k

/-- Python dict read with a default (`dict.get(k, d)` / `defaultdict`). -/
def lookupD (m : List (String × α)) (k : String) (d : α) : α :=
  (lookupA m k).getD d

/-- Python dict write `m[k] = v`: replaces in place, or appends a new key
at the end (dicts preserve insertion order). -/
def setA (m : List (String × α)) (k : String) (v : α) : List (String × α) :=
  match m with
  | [] => [(k, v)]
  | (k', v') :: t => if k' = k then (k', v) :: t else (k', v') :: setA t k v

/-- Characters of `p` are an initial segment of `l` (helper for substring). -/
def charsPre : List Char → List Char → Bool
  | [], _ => true
  | _ :: _, [] => false
  | a :: as, b :: bs => a == b && charsPre as bs

/-- `needle` occurs contiguously somewhere in the second list. -/
def charsSub (needle : List Char) : List Char → Bool
  | [] => charsPre needle []
  | c :: rest => charsPre needle (c :: rest) || charsSub needle rest

/-- Python's `needle in hay` substring test on strings. -/
def strContains (hay needle : String) : Bool :=
  charsSub needle.toList hay.toList

/-- Python's `any(keyword in s for keyword in kws)`. -/
def anyKeyword (s : String) (kws : List String) : Bool :=
  kws.any (fun k => strContains s k)

/-- Python's `str.lower()` (ASCII case mapping, which covers every string
the tracker lowercases). -/
def strLower (s : String) : String :=
  String.mk (s.data.map Char.toLower)

/-- Python `int()` applied to a float: truncation toward zero. -/
def ratTrunc (q : ℚ) : ℤ :=
  if 0 ≤ q then q.floor else q.ceil

/-- Python list indexing `xs[i]`: negative indices address from the end.
Out-of-range access raises `IndexError` in Python; it is modelled as `0`
and never exercised by the theorems below. -/
def pyIndex (xs : List ℚ) (i : ℤ) : ℚ :=
  if 0 ≤ i then xs.getD i.toNat 0 else xs.getD (xs.length - (-i).toNat) 0

/-- Python `sorted` on floats: ascending order. -/
def sortQ (data : List ℚ) : List ℚ :=
  data.insertionSort (· ≤ ·)

/-! ### MetricsCollector (`metrics.py`) -/

/-- `MetricSummary` dataclass. -/
structure MetricSummary where
  name : String
  count : Nat
  min_value : ℚ
  max_value : ℚ
  avg_value : ℚ
  median_value : ℚ
  p95_value : ℚ
  p99_value : ℚ
  last_updated : ℚ
deriving Repr, DecidableEq

/-- The mutable state of `MetricsCollector.__init__` (the `threading.RLock`
and the label/metadata side tables, which no claim touches, are omitted).
`max_samples` caps the histogram and timer deques; the per-endpoint
response-time deques are capped at 1000 and the per-endpoint error-timestamp
deques at 100, as in the source. -/
structure MetricsCollector where
  max_samples : Nat
  counters : List (String × ℚ)
  gauges : List (String × ℚ)
  histograms : List (String × List ℚ)
  timers : List (String × List ℚ)
  error_counts : List (String × Nat)
  error_rates : List (String × List ℚ)
  request_counts : List (String × Nat)
  response_times : List (String × List ℚ)
deriving Repr, DecidableEq

/-- `MetricsCollector(max_samples)` fresh state. -/
def MetricsCollector.init (max_samples : Nat) : MetricsCollector :=
  { max_samples := max_samples, counters := [], gauges := [], histograms := [],
    timers := [], error_counts := [], error_rates := [], request_counts := [],
    response_times := [] }

/-- `MetricsCollector.increment_counter`. -/
def increment_counter (m : MetricsCollector) (name : String) (value : ℚ) :
    MetricsCollector :=
  { m with counters := setA m.counters name (lookupD m.counters name 0 + value) }

/-- `MetricsCollector.set_gauge`. -/
def set_gauge (m : MetricsCollector) (name : String) (value : ℚ) :
    MetricsCollector :=
  { m with gauges := setA m.gauges name value }

/-- `MetricsCollector.record_histogram`. -/
def record_histogram (m : MetricsCollector) (name : String) (value : ℚ) :
    MetricsCollector :=
  let buf := dequeAppend m.max_samples (lookupD m.histograms name []) value
  { m with histograms := setA m.histograms name buf }

/-- `MetricsCollector.record_timer`. -/
def record_timer (m : MetricsCollector) (name : String) (duration : ℚ) :
    MetricsCollector :=
  let buf := dequeAppend m.max_samples (lookupD m.timers name []) duration
  { m with timers := setA m.timers name buf }

/-- `MetricsCollector.record_request`; `now` is the `time.time()` read when a
failure timestamp is pushed onto the error ring. -/
def record_request (m : MetricsCollector) (endpoint : String)
    (response_time : ℚ) (success : Bool) (now : ℚ) : MetricsCollector :=
  let rcounts := setA m.request_counts endpoint (lookupD m.request_counts endpoint 0 + 1)
  let rtimes := setA m.response_times endpoint (dequeAppend 1000 (lookupD m.response_times endpoint []) response_time)
  let m1 := { m with request_counts := rcounts, response_times := rtimes }
  if success then m1
  else
    let ecounts := setA m1.error_counts endpoint (lookupD m1.error_counts endpoint 0 + 1)
    let erates := setA m1.error_rates endpoint (dequeAppend 100 (lookupD m1.error_rates endpoint []) now)
    { m1 with error_counts := ecounts, error_rates := erates }

/-- `MetricsCollector.get_error_rate`: windowed error count over the lifetime
request total, times 100. -/
def get_error_rate (m : MetricsCollector) (endpoint : String)
    (window_minutes : ℚ) (now : ℚ) : ℚ :=
  match lookupA m.error_rates endpoint with
  | none => 0
  | some errorTimes =>
    let cutoff := now - window_minutes * 60
    let recent_errors := (errorTimes.filter (fun t => decide (cutoff < t))).length
    let total_requests := lookupD m.request_counts endpoint 0
    if total_requests = 0 then 0
    else ((recent_errors : ℚ) / (total_requests : ℚ)) * 100

/-- `MetricsCollector._percentile`: `index = (p/100)*(n-1)`, exact sample when
`index` is integral, otherwise linear interpolation between the samples at
`int(index)` and `int(index) + 1`. -/
def percentile (data : List ℚ) (p : ℚ) : ℚ :=
  if data = [] then 0
  else
    let sorted_data := sortQ data
    let index : ℚ := p / 100 * ((sorted_data.length : ℚ) - 1)
    if index.den = 1 then pyIndex sorted_data (ratTrunc index)
    else
      let lower := pyIndex sorted_data (ratTrunc index)
      let upper := pyIndex sorted_data (ratTrunc index + 1)
      lower + (upper - lower) * (index - (ratTrunc index : ℚ))

/-- `statistics.median`: middle sample of the sorted list, or the mean of the
two middle samples when the length is even. -/
def median (data : List ℚ) : ℚ :=
  let s := sortQ data
  let n := s.length
  if n = 0 then 0
  else if n % 2 = 1 then s.getD (n / 2) 0
  else (s.getD (n / 2 - 1) 0 + s.getD (n / 2) 0) / 2

/-- `statistics.mean`. -/
def listMean (data : List ℚ) : ℚ :=
  data.sum / (data.length : ℚ)

/-- Python `min` on a nonempty float list (0 on empty, never exercised). -/
def listMin (data : List ℚ) : ℚ :=
  match data with
  | [] => 0
  | x :: xs => xs.foldl min x

/-- Python `max` on a nonempty float list (0 on empty, never exercised). -/
def listMax (data : List ℚ) : ℚ :=
  match data with
  | [] => 0
  | x :: xs => xs.foldl max x

/-- `MetricsCollector.get_response_time_stats`; reads the per-endpoint
`response_times` deque (populated only by `record_request`), returning
`None` when the endpoint has no recorded samples. `now` is the
`time.time()` stamped into `last_updated`. -/
def get_response_time_stats (m : MetricsCollector) (endpoint : String)
    (now : ℚ) : Option MetricSummary :=
  match lookupA m.response_times endpoint with
  | none => none
  | some times =>
    if times = [] then none
    else
      some
        { name := endpoint ++ "_response_time"
          count := times.length
          min_value := listMin times
          max_value := listMax times
          avg_value := listMean times
          median_value := median times
          p95_value := percentile times 95
          p99_value := percentile times 99
          last_updated := now }

/-- The wrapper produced by `RequestTracker.track_request(endpoint)`: the
wrapped operation's outcome is an `Except` value; the wrapper records exactly
one request with the elapsed milliseconds and the success flag in a
`finally` block, returns a normal result unchanged and re-raises an
exception unchanged. -/
def track_request_wrapper (m : MetricsCollector) (endpoint : String)
    (func : Except ε α) (start_time finish_time : ℚ) :
    MetricsCollector × Except ε α :=
  match func with
  | Except.ok result =>
    let response_time := (finish_time - start_time) * 1000
    (record_request m endpoint response_time true finish_time, Except.ok result)
  | Except.error e =>
    let response_time := (finish_time - start_time) * 1000
    (record_request m endpoint response_time false finish_time, Except.error e)

/-! ### ErrorTracker (`alerting.py`) -/

/-- `AlertSeverity` enum. -/
inductive AlertSeverity
  | LOW
  | MEDIUM
  | HIGH
  | CRITICAL
deriving Repr, DecidableEq

/-- `ErrorCategory` enum. -/
inductive ErrorCategory
  | CONNECTION
  | AUTHENTICATION
  | TIMEOUT
  | RATE_LIMIT
  | VALIDATION
  | SYSTEM_RESOURCE
  | MCP_SERVER
  | UNKNOWN
deriving Repr, DecidableEq

/-- The `.value` string of each `ErrorCategory` member. -/
def ErrorCategory.value : ErrorCategory → String
  | .CONNECTION => "connection"
  | .AUTHENTICATION => "authentication"
  | .TIMEOUT => "timeout"
  | .RATE_LIMIT => "rate_limit"
  | .VALIDATION => "validation"
  | .SYSTEM_RESOURCE => "system_resource"
  | .MCP_SERVER => "mcp_server"
  | .UNKNOWN => "unknown"

/-- A Python exception as the tracker observes it: its type name
(`type(e).__name__`) and its message (`str(e)`). -/
structure Exc where
  typeName : String
  message : String
deriving Repr, DecidableEq

/-- The free-form `context` dict passed to `track_error`, restricted to the
keys the tracker reads: `function`, `source`, `server_name` (absent keys are
`None`) and `consecutive_failures` (absent means 0). -/
structure Ctx where
  function : Option String
  source : Option String
  server_name : Option String
  consecutive_failures : Nat
deriving Repr, DecidableEq

/-- The empty context dict. -/
def Ctx.empty : Ctx :=
  { function := none, source := none, server_name := none,
    consecutive_failures := 0 }

/-- `ErrorEvent` dataclass. -/
structure ErrorEvent where
  id : String
  timestamp : ℚ
  category : ErrorCategory
  severity : AlertSeverity
  message : String
  exception_type : String
  stack_trace : String
  context : Ctx
  count : Nat
  first_seen : ℚ
  last_seen : ℚ
deriving Repr, DecidableEq

/-- The snapshot dict built by `_check_alert_conditions` and handed to every
rule condition and to `message_template.format`. -/
structure AlertCtx where
  error_rate_per_minute : ℚ
  category : ErrorCategory
  message : String
  count : Nat
  server_name : String
  consecutive_failures : Nat
deriving Repr, DecidableEq

/-- `Alert` dataclass. The rendered `message` keeps the raw template; the
`str.format` interpolation is not modelled (no claim reads the rendered
text). -/
structure Alert where
  id : String
  severity : AlertSeverity
  title : String
  message : String
  timestamp : ℚ
  context : AlertCtx
  acknowledged : Bool
  resolved : Bool
deriving Repr, DecidableEq

/-- `AlertRule` dataclass (the condition is an arbitrary predicate over the
snapshot dict). -/
structure AlertRule where
  name : String
  condition : AlertCtx → Bool
  severity : AlertSeverity
  message_template : String
  cooldown_seconds : ℚ
  enabled : Bool

/-- An entry of the `recent_errors` ring: `track_error` appends the dict
`{"id", "timestamp", "category" (its .value string), "message"}`. -/
structure RecentError where
  id : String
  timestamp : ℚ
  category : String
  message : String
deriving Repr, DecidableEq

/-- The mutable state of `ErrorTracker.__init__` (the `error_patterns`
counter table and the delivery `config`, which the default configuration
leaves inert, are omitted). -/
structure ErrorTracker where
  max_errors : Nat
  errors : List (String × ErrorEvent)
  recent_errors : List RecentError
  alerts : List (String × Alert)
  alert_rules : List AlertRule
  last_alert_times : List (String × ℚ)

/-- The four rules installed by `_setup_default_rules`. -/
def default_rules : List AlertRule :=
  [ { name := "high_error_rate"
      condition := fun ctx => decide (10 < ctx.error_rate_per_minute)
      severity := .HIGH
      message_template := "High error rate detected: {error_rate_per_minute} errors/minute"
      cooldown_seconds := 300
      enabled := true }
  , { name := "critical_system_error"
      condition := fun ctx => ctx.category == .SYSTEM_RESOURCE
      severity := .CRITICAL
      message_template := "Critical system resource error: {message}"
      cooldown_seconds := 300
      enabled := true }
  , { name := "mcp_server_down"
      condition := fun ctx => ctx.category == .MCP_SERVER && decide (3 < ctx.consecutive_failures)
      severity := .HIGH
      message_template := "MCP Server {server_name} appears to be down (3+ consecutive failures)"
      cooldown_seconds := 300
      enabled := true }
  , { name := "authentication_failures"
      condition := fun ctx => ctx.category == .AUTHENTICATION && decide (5 < ctx.count)
      severity := .MEDIUM
      message_template := "Multiple authentication failures detected ({count} attempts)"
      cooldown_seconds := 300
      enabled := true } ]

/-- `ErrorTracker(max_errors)` fresh state with the default rules. -/
def ErrorTracker.init (max_errors : Nat) : ErrorTracker :=
  { max_errors := max_errors, errors := [], recent_errors := [], alerts := [],
    alert_rules := default_rules, last_alert_times := [] }

/-- `ErrorTracker.categorize_error`: keyword rules applied top-down, first
match wins, `UNKNOWN` as the fallback. -/
def categorize_error (exception : Exc) (context : Ctx) : ErrorCategory :=
  let exception_name := strLower exception.typeName
  let error_message := strLower exception.message
  if anyKeyword exception_name ["connection", "network", "socket"] then
    .CONNECTION
  else if anyKeyword error_message ["connection refused", "network unreachable", "timeout"] then
    .CONNECTION
  else if anyKeyword exception_name ["auth", "permission", "access"] then
    .AUTHENTICATION
  else if anyKeyword error_message ["unauthorized", "forbidden", "invalid token", "api key"] then
    .AUTHENTICATION
  else if strContains exception_name "timeout" || strContains error_message "timeout" then
    .TIMEOUT
  else if anyKeyword error_message ["rate limit", "too many requests", "429"] then
    .RATE_LIMIT
  else if anyKeyword exception_name ["validation", "value", "type"] then
    .VALIDATION
  else if anyKeyword exception_name ["memory", "disk", "resource"] then
    .SYSTEM_RESOURCE
  else if context.source == some "mcp_server" then
    .MCP_SERVER
  else
    .UNKNOWN

/-- `ErrorTracker.determine_severity`: decision table evaluated top-down
(the `context` argument is accepted and ignored, as in the source). -/
def determine_severity (category : ErrorCategory) (error_count : Nat)
    (_context : Ctx) : AlertSeverity :=
  if category = .SYSTEM_RESOURCE then .CRITICAL
  else if category = .MCP_SERVER ∧ 3 < error_count then .HIGH
  else if (category = .CONNECTION ∨ category = .TIMEOUT) ∧ 5 < error_count then .HIGH
  else if 10 < error_count then .MEDIUM
  else .LOW

/-- `ErrorTracker.generate_error_id` builds the signature string
`f"{type(exception).__name__}:{exception}:{context.get('function', '')}"`.
The source then hashes it (`md5(...).hexdigest()[:12]`); the digest is
modelled as the signature string itself — like the digest it is a
deterministic function of exactly this triple. -/
def generate_error_id (exception : Exc) (context : Ctx) : String :=
  exception.typeName ++ ":" ++ exception.message ++ ":" ++ context.function.getD ""

/-- `ErrorTracker._calculate_error_rate`: entries of the recent-errors ring
younger than five minutes, divided by five. -/
def calculate_error_rate (t : ErrorTracker) (now : ℚ) : ℚ :=
  let cutoff := now - 300
  let recent_count := (t.recent_errors.filter (fun e => decide (cutoff < e.timestamp))).length
  (recent_count : ℚ) / 5

/-- `ErrorTracker._create_alert`: inserts the alert under the key
`f"{rule.name}_{int(time.time())}"` (delivery channels are disabled by the
default configuration). -/
def create_alert (t : ErrorTracker) (rule : AlertRule) (actx : AlertCtx)
    (now : ℚ) : ErrorTracker :=
  let alert_id := rule.name ++ "_" ++ toString (ratTrunc now)
  let alert : Alert :=
    { id := alert_id, severity := rule.severity,
      title := "FastAgent Alert: " ++ rule.name,
      message := rule.message_template, timestamp := now, context := actx,
      acknowledged := false, resolved := false }
  { t with alerts := setA t.alerts alert_id alert }

/-- One iteration of the rule loop in `_check_alert_conditions`: skip a
disabled rule, skip a (rule, error) pair still in cooldown, otherwise fire
when the condition holds and record the firing time. The second component
accumulates the `rule_key`s that fired during this call. -/
def check_rule_step (eid : String) (actx : AlertCtx) (now : ℚ)
    (acc : ErrorTracker × List String) (rule : AlertRule) :
    ErrorTracker × List String :=
  if rule.enabled = false then acc
  else
    let rule_key := rule.name ++ "_" ++ eid
    let inCooldown :=
      match lookupA acc.1.last_alert_times rule_key with
      | some lastT => decide (now - lastT < rule.cooldown_seconds)
      | none => false
    if inCooldown then acc
    else if rule.condition actx then
      let t1 := create_alert acc.1 rule actx now
      ({ t1 with last_alert_times := setA t1.last_alert_times rule_key now },
        acc.2 ++ [rule_key])
    else acc

/-- `ErrorTracker._check_alert_conditions`, instrumented with the list of
(rule, error) keys that fired during the call. -/
def check_alert_conditions (t : ErrorTracker) (error_event : ErrorEvent)
    (now : ℚ) : ErrorTracker × List String :=
  let error_rate := calculate_error_rate t now
  let actx : AlertCtx :=
    { error_rate_per_minute := error_rate
      category := error_event.category
      message := error_event.message
      count := error_event.count
      server_name := error_event.context.server_name.getD "unknown"
      consecutive_failures := error_event.context.consecutive_failures }
  t.alert_rules.foldl (check_rule_step error_event.id actx now) (t, [])

/-- The capacity cleanup at the end of `track_error`: when the error map has
grown past `max_errors`, delete the first 100 events of the map's values
sorted ascending by `last_seen`. -/
def prune_errors (t : ErrorTracker) : ErrorTracker :=
  if t.max_errors < t.errors.length then
    let sortedErrors := t.errors.insertionSort (fun a b => a.2.last_seen ≤ b.2.last_seen)
    let oldest := sortedErrors.take 100
    { t with errors := t.errors.filter (fun p => !(oldest.any (fun q => q.2.id == p.2.id))) }
  else t

/-- `ErrorTracker.track_error`, instrumented with the fired rule keys:
dedup by `generate_error_id` (bump `count`/`last_seen` of an existing event,
else create a fresh one), recompute the severity from the freshly computed
category and the new count, append to the recent-errors ring, evaluate the
alert rules, and finally prune on overflow. `stack_trace` stands for
`traceback.format_exc()` and `now` for `time.time()`. -/
def track_error_core (t : ErrorTracker) (exception : Exc) (context : Ctx)
    (stack_trace : String) (now : ℚ) : ErrorTracker × List String :=
  let error_id := generate_error_id exception context
  let category := categorize_error exception context
  let base_event : ErrorEvent :=
    match lookupA t.errors error_id with
    | some ev => { ev with count := ev.count + 1, last_seen := now }
    | none =>
      { id := error_id, timestamp := now, category := category,
        severity := determine_severity category 1 context,
        message := exception.message, exception_type := exception.typeName,
        stack_trace := stack_trace, context := context, count := 1,
        first_seen := now, last_seen := now }
  let error_event := { base_event with
    severity := determine_severity category base_event.count context }
  let ring := dequeAppend 1000 t.recent_errors
    { id := error_id, timestamp := now, category := category.value,
      message := exception.message }
  let t1 := { t with errors := setA t.errors error_id error_event,
                     recent_errors := ring }
  let checked := check_alert_conditions t1 error_event now
  (prune_errors checked.1, checked.2)

/-- `ErrorTracker.track_error` (state part). -/
def track_error (t : ErrorTracker) (exception : Exc) (context : Ctx)
    (stack_trace : String) (now : ℚ) : ErrorTracker :=
  (track_error_core t exception context stack_trace now).1

/-- One `track_error` call's arguments. -/
structure Call where
  exc : Exc
  ctx : Ctx
  stack : String
  time : ℚ
deriving Repr, DecidableEq

/-- A sequence of `track_error` calls applied in order. -/
def runTrack (t : ErrorTracker) (calls : List Call) : ErrorTracker :=
  calls.foldl (fun acc c => track_error acc c.exc c.ctx c.stack c.time) t

/-- The rule keys fired by the next `track_error` call. -/
def firedOf (t : ErrorTracker) (c : Call) : List String :=
  (track_error_core t c.exc c.ctx c.stack c.time).2

/-- Modelled from the spec's words (for comparison with `percentile`): sort
the samples ascending, take `rank = (p/100)·(n−1)`; if the rank is integral
return the sample at that rank exactly, otherwise linearly interpolate
between the samples at the floor and ceiling ranks. -/
def percentileSpec (data : List ℚ) (p : ℚ) : ℚ :=
  let s := sortQ data
  let rank : ℚ := p / 100 * ((s.length : ℚ) - 1)
  if rank.den = 1 then s.getD rank.floor.toNat 0
  else
    let lo := s.getD rank.floor.toNat 0
    let hi := s.getD rank.ceil.toNat 0
    lo + (hi - lo) * (rank - (rank.floor : ℚ))

/-- Modelled from the spec's words (for comparison with `categorize_error`):
the classification as an ordered first-match rule table
CONNECTION → AUTHENTICATION → TIMEOUT → RATE_LIMIT → VALIDATION →
SYSTEM_RESOURCE → MCP_SERVER with UNKNOWN as the fallback. -/
def categorySpecTable : List ((String × String × Ctx → Bool) × ErrorCategory) :=
  [ (fun i => anyKeyword i.1 ["connection", "network", "socket"] ||
      anyKeyword i.2.1 ["connection refused", "network unreachable", "timeout"],
      .CONNECTION)
  , (fun i => anyKeyword i.1 ["auth", "permission", "access"] ||
      anyKeyword i.2.1 ["unauthorized", "forbidden", "invalid token", "api key"],
      .AUTHENTICATION)
  , (fun i => strContains i.1 "timeout" || strContains i.2.1 "timeout", .TIMEOUT)
  , (fun i => anyKeyword i.2.1 ["rate limit", "too many requests", "429"], .RATE_LIMIT)
  , (fun i => anyKeyword i.1 ["validation", "value", "type"], .VALIDATION)
  , (fun i => anyKeyword i.1 ["memory", "disk", "resource"], .SYSTEM_RESOURCE)
  , (fun i => i.2.2.source == some "mcp_server", .MCP_SERVER) ]

/-- First-match evaluation of an ordered rule table. -/
def firstMatch (input : String × String × Ctx) :
    List ((String × String × Ctx → Bool) × ErrorCategory) → ErrorCategory
  | [] => .UNKNOWN
  | r :: rest => if r.1 input then r.2 else firstMatch input rest

/-- First matching category of the spec's rule table, `UNKNOWN` otherwise. -/
def categorizeSpec (exception : Exc) (context : Ctx) : ErrorCategory :=
  firstMatch (strLower exception.typeName, strLower exception.message, context)
    categorySpecTable

/-- One `record_request` call's arguments (`time` is the `time.time()` value
observed during the call). -/
structure RCall where
  endpoint : String
  response_time : ℚ
  success : Bool
  time : ℚ
deriving Repr, DecidableEq

/-- A sequence of `record_request` calls applied in order. -/
def runRequests (m : MetricsCollector) (calls : List RCall) : MetricsCollector :=
  calls.foldl
    (fun acc c => record_request acc c.endpoint c.response_time c.success c.time) m

/-- The calls of a run addressed to endpoint `e`. -/
def reqCallsFor (calls : List RCall) (e : String) : List RCall :=
  calls.filter (fun c => c.endpoint == e)

/-- The failure timestamps of a run for endpoint `e`, oldest first. -/
def failTimesFor (calls : List RCall) (e : String) : List ℚ :=
  (calls.filter (fun c => c.endpoint == e && !c.success)).map (fun c => c.time)

/-! ### Generic lemmas about the dict and deque models -/

theorem lookupA_setA_self (m : List (String × α)) (k : String) (v : α) :
    lookupA (setA m k v) k = some v := by
  induction m with
  | nil => simp [setA, lookupA]
  | cons p t ih =>
    obtain ⟨k', v'⟩ := p
    by_cases h : k' = k
    · simp [setA, lookupA, h]
    · simp [setA, lookupA, h, ih]

theorem lookupA_setA_ne (m : List (String × α)) (k k' : String) (v : α)
    (h : k' ≠ k) : lookupA (setA m k' v) k = lookupA m k := by
  induction m with
  | nil => simp [setA, lookupA, h]
  | cons p t ih =>
    obtain ⟨k₀, v₀⟩ := p
    by_cases h0 : k₀ = k'
    · subst h0; simp [setA, lookupA, h]
    · simp [setA, lookupA, h0, ih]

theorem length_setA_of_mem (m : List (String × α)) (k : String) (v w : α)
    (h : lookupA m k = some w) : (setA m k v).length = m.length := by
  induction m with
  | nil => simp [lookupA] at h
  | cons p t ih =>
    obtain ⟨k₀, v₀⟩ := p
    by_cases h0 : k₀ = k
    · simp [setA, h0]
    · simp [lookupA, h0] at h
      simp [setA, h0, ih h]

theorem length_setA_of_absent (m : List (String × α)) (k : String) (v : α)
    (h : lookupA m k = none) : (setA m k v).length = m.length + 1 := by
  induction m with
  | nil => simp [setA]
  | cons p t ih =>
    obtain ⟨k₀, v₀⟩ := p
    by_cases h0 : k₀ = k
    · simp [lookupA, h0] at h
    · simp [lookupA, h0] at h
      simp [setA, h0, ih h]

theorem dequeAppend_eq_lastN (cap : Nat) (xs : List α) (a : α) :
    dequeAppend cap xs a = lastN cap (xs ++ [a]) := rfl

theorem length_lastN (n : Nat) (xs : List α) :
    (lastN n xs).length = min n xs.length := by
  simp [lastN]
  omega

theorem length_dequeAppend_le (cap : Nat) (xs : List α) (a : α) :
    (dequeAppend cap xs a).length ≤ cap := by
  rw [dequeAppend_eq_lastN, length_lastN]
  omega

theorem lastN_of_le (n : Nat) (xs : List α) (h : xs.length ≤ n) :
    lastN n xs = xs := by
  unfold lastN
  have h0 : xs.length - n = 0 := by omega
  rw [h0, List.drop_zero]

theorem lastN_lastN (m n : Nat) (xs : List α) :
    lastN m (lastN n xs) = lastN (min m n) xs := by
  unfold lastN
  rw [List.length_drop, List.drop_drop]
  congr 1
  omega

theorem dequeAppend_full (cap : Nat) (xs : List α) (a : α) (hcap : 0 < cap)
    (hfull : xs.length = cap) : dequeAppend cap xs a = xs.tail ++ [a] := by
  have hlen : (xs ++ [a]).length - cap = 1 := by simp [hfull]
  show (xs ++ [a]).drop ((xs ++ [a]).length - cap) = xs.tail ++ [a]
  rw [hlen]
  cases xs with
  | nil => simp at hfull; omega
  | cons x t => simp

/-! ### Frame lemmas: which fields each tracker operation can touch -/

theorem check_rule_step_frame (eid : String) (actx : AlertCtx) (now : ℚ)
    (acc : ErrorTracker × List String) (rule : AlertRule) :
    (check_rule_step eid actx now acc rule).1.errors = acc.1.errors ∧
    (check_rule_step eid actx now acc rule).1.recent_errors = acc.1.recent_errors ∧
    (check_rule_step eid actx now acc rule).1.max_errors = acc.1.max_errors ∧
    (check_rule_step eid actx now acc rule).1.alert_rules = acc.1.alert_rules := by
  unfold check_rule_step create_alert
  dsimp only
  repeat' split
  all_goals exact ⟨rfl, rfl, rfl, rfl⟩

theorem check_fold_frame (eid : String) (actx : AlertCtx) (now : ℚ) :
    ∀ (rules : List AlertRule) (acc : ErrorTracker × List String),
    (rules.foldl (check_rule_step eid actx now) acc).1.errors = acc.1.errors ∧
    (rules.foldl (check_rule_step eid actx now) acc).1.recent_errors = acc.1.recent_errors ∧
    (rules.foldl (check_rule_step eid actx now) acc).1.max_errors = acc.1.max_errors ∧
    (rules.foldl (check_rule_step eid actx now) acc).1.alert_rules = acc.1.alert_rules := by
  intro rules
  induction rules with
  | nil => intro acc; exact ⟨rfl, rfl, rfl, rfl⟩
  | cons r rs ih =>
    intro acc
    have h1 := check_rule_step_frame eid actx now acc r
    have h2 := ih (check_rule_step eid actx now acc r)
    simp only [List.foldl_cons]
    exact ⟨h2.1.trans h1.1, h2.2.1.trans h1.2.1, h2.2.2.1.trans h1.2.2.1,
      h2.2.2.2.trans h1.2.2.2⟩

theorem check_alert_conditions_frame (t : ErrorTracker) (ev : ErrorEvent)
    (now : ℚ) :
    (check_alert_conditions t ev now).1.errors = t.errors ∧
    (check_alert_conditions t ev now).1.recent_errors = t.recent_errors ∧
    (check_alert_conditions t ev now).1.max_errors = t.max_errors ∧
    (check_alert_conditions t ev now).1.alert_rules = t.alert_rules :=
  check_fold_frame _ _ now t.alert_rules (t, [])

theorem prune_errors_frame (t : ErrorTracker) :
    (prune_errors t).recent_errors = t.recent_errors ∧
    (prune_errors t).max_errors = t.max_errors ∧
    (prune_errors t).alert_rules = t.alert_rules ∧
    (prune_errors t).last_alert_times = t.last_alert_times ∧
    (prune_errors t).alerts = t.alerts := by
  unfold prune_errors
  split
  · exact ⟨rfl, rfl, rfl, rfl, rfl⟩
  · exact ⟨rfl, rfl, rfl, rfl, rfl⟩

theorem track_error_frame (t : ErrorTracker) (exc : Exc) (ctx : Ctx)
    (st : String) (now : ℚ) :
    (track_error t exc ctx st now).max_errors = t.max_errors ∧
    (track_error t exc ctx st now).alert_rules = t.alert_rules ∧
    (track_error t exc ctx st now).recent_errors =
      dequeAppend 1000 t.recent_errors
        { id := generate_error_id exc ctx, timestamp := now,
          category := (categorize_error exc ctx).value,
          message := exc.message } := by
  unfold track_error track_error_core
  have hprune := prune_errors_frame
  have hcheck := check_alert_conditions_frame
  constructor
  · rw [(hprune _).2.1, (hcheck _ _ _).2.2.1]
  constructor
  · rw [(hprune _).2.2.1, (hcheck _ _ _).2.2.2]
  · rw [(hprune _).1, (hcheck _ _ _).2.1]

/-- C5: every bounded buffer in the collector and the tracker (histogram and
timer windows capped at `max_samples`, per-endpoint response-time ring at
1000, per-endpoint error-timestamp ring at 100, recent-errors ring at 1000)
never exceeds its capacity after an insertion, and an insertion into a full
buffer evicts exactly the oldest entry while keeping all newer ones in
order. -/
theorem claim_C5_bounded_buffers :
    (∀ (cap : Nat) (xs : List ℚ) (a : ℚ),
      (dequeAppend cap xs a).length ≤ cap) ∧
    (∀ (cap : Nat) (xs : List ℚ) (a : ℚ), 0 < cap → xs.length = cap →
      dequeAppend cap xs a = xs.tail ++ [a]) ∧
    (∀ (m : MetricsCollector) (name : String) (v : ℚ),
      (lookupD (record_histogram m name v).histograms name []).length ≤ m.max_samples) ∧
    (∀ (m : MetricsCollector) (name : String) (v : ℚ),
      (lookupD (record_timer m name v).timers name []).length ≤ m.max_samples) ∧
    (∀ (m : MetricsCollector) (e : String) (rt : ℚ) (s : Bool) (now : ℚ),
      (lookupD (record_request m e rt s now).response_times e []).length ≤ 1000) ∧
    (∀ (m : MetricsCollector) (e : String) (rt : ℚ) (now : ℚ),
      (lookupD (record_request m e rt false now).error_rates e []).length ≤ 100) ∧
    (∀ (t : ErrorTracker) (exc : Exc) (ctx : Ctx) (st : String) (now : ℚ),
      t.recent_errors.length ≤ 1000 →
      (track_error t exc ctx st now).recent_errors.length ≤ 1000) := by
  refine ⟨fun cap xs a => length_dequeAppend_le cap xs a,
    fun cap xs a h1 h2 => dequeAppend_full cap xs a h1 h2, ?_, ?_, ?_, ?_, ?_⟩
  · intro m name v
    unfold record_histogram
    simp [lookupD, lookupA_setA_self, length_dequeAppend_le]
  · intro m name v
    unfold record_timer
    simp [lookupD, lookupA_setA_self, length_dequeAppend_le]
  · intro m e rt s now
    unfold record_request
    cases s
    · simp [lookupD, lookupA_setA_self, length_dequeAppend_le]
    · simp [lookupD, lookupA_setA_self, length_dequeAppend_le]
  · intro m e rt now
    unfold record_request
    simp [lookupD, lookupA_setA_self, length_dequeAppend_le]
  · intro t exc ctx st now _
    rw [(track_error_frame t exc ctx st now).2.2]
    exact length_dequeAppend_le _ _ _

/-- C5 witness: the FIFO conjunct applied at a concrete full two-slot buffer. -/
theorem claim_C5_witness :
    (0 : Nat) < 2 ∧ ([ (1 : ℚ), 2 ]).length = 2 ∧
    dequeAppend 2 [(1 : ℚ), 2] 3 = [2, 3] :=
  ⟨by decide, by decide,
    claim_C5_bounded_buffers.2.1 2 [1, 2] 3 (by decide) (by decide)⟩

/-- C2 counterexample: the spec's example feeds `record_timer`, but
`get_response_time_stats` reads the `response_times` ring, which only
`record_request` fills — so after `record_timer("x",100)` and
`record_timer("x",300)` the call returns `None`, not a summary with
count 2. -/
theorem claim_C2_counterexample :
    get_response_time_stats
      (record_timer (record_timer (MetricsCollector.init 10000) "x" 100) "x" 300)
      "x" 0 = none := by
  decide

/-- C2 amended: after `record_request("x",100,success)` and
`record_request("x",300,success)` — the API that populates the ring the
stats read — `get_response_time_stats("x")` yields count 2, min 100,
max 300, avg 200, median 200 (with p95 = 290, p99 = 298 by the same
interpolation). -/
theorem claim_C2_response_time_stats :
    get_response_time_stats
      (record_request (record_request (MetricsCollector.init 10000) "x" 100 true 0)
        "x" 300 true 0) "x" 7 =
    some
      { name := "x_response_time", count := 2, min_value := 100,
        max_value := 300, avg_value := 200, median_value := 200,
        p95_value := 290, p99_value := 298, last_updated := 7 } := by
  decide

/-! ### C7: the percentile computation -/

theorem ratTrunc_of_nonneg (q : ℚ) (h : 0 ≤ q) : ratTrunc q = q.floor :=
  if_pos h

theorem pyIndex_of_nonneg (xs : List ℚ) (i : ℤ) (h : 0 ≤ i) :
    pyIndex xs i = xs.getD i.toNat 0 :=
  if_pos h

theorem rat_floor_nonneg (q : ℚ) (h : 0 ≤ q) : 0 ≤ q.floor :=
  Rat.le_floor.mpr (by exact_mod_cast h)

theorem rat_ceil_of_den_ne_one (q : ℚ) (h : ¬q.den = 1) :
    q.ceil = q.floor + 1 := by
  unfold Rat.ceil Rat.floor
  simp [h]

theorem percentile_eq_spec (data : List ℚ) (p : ℚ) (hne : data ≠ [])
    (hp : 0 ≤ p) : percentile data p = percentileSpec data p := by
  have hlen : 1 ≤ (sortQ data).length := by
    simpa [sortQ] using List.length_pos.mpr hne
  have hr : 0 ≤ p / 100 * (((sortQ data).length : ℚ) - 1) := by
    apply mul_nonneg (div_nonneg hp (by norm_num))
    have h1 : (1 : ℚ) ≤ ((sortQ data).length : ℚ) := by exact_mod_cast hlen
    linarith
  have hfl : 0 ≤ (p / 100 * (((sortQ data).length : ℚ) - 1)).floor :=
    rat_floor_nonneg _ hr
  unfold percentile percentileSpec
  rw [if_neg hne]
  dsimp only
  rw [ratTrunc_of_nonneg _ hr]
  by_cases hden : (p / 100 * (((sortQ data).length : ℚ) - 1)).den = 1
  · rw [if_pos hden, if_pos hden, pyIndex_of_nonneg _ _ hfl]
  · rw [if_neg hden, if_neg hden, rat_ceil_of_den_ne_one _ hden,
      pyIndex_of_nonneg _ _ hfl, pyIndex_of_nonneg _ _ (by omega)]

/-- C7: for every nonempty sample list and percentile `p` (a percentile is a
value between 0 and 100), `_percentile` computes exactly the spec's
formula — sort ascending, `rank = (p/100)·(n−1)`, exact sample at an
integral rank, linear interpolation between the floor- and ceiling-rank
samples otherwise; in particular p50 of [10,20,30,40,50] is exactly 30 (and
p95 = 48, p99 = 49.6 by interpolation). -/
theorem claim_C7_percentile :
    (∀ (data : List ℚ) (p : ℚ), data ≠ [] → 0 ≤ p → p ≤ 100 →
      percentile data p = percentileSpec data p) ∧
    percentile [10, 20, 30, 40, 50] 50 = 30 ∧
    percentile [10, 20, 30, 40, 50] 95 = 48 ∧
    percentile [10, 20, 30, 40, 50] 99 = 248 / 5 :=
  ⟨fun data p hne hp _ => percentile_eq_spec data p hne hp,
    by decide, by decide, by decide⟩

/-- C7 witness: the formula correspondence applied at the spec's own
example, p95 of [10,20,30,40,50]. -/
theorem claim_C7_witness :
    ([ (10 : ℚ), 20, 30, 40, 50 ] ≠ []) ∧ (0 : ℚ) ≤ 95 ∧ (95 : ℚ) ≤ 100 ∧
    percentile [10, 20, 30, 40, 50] 95 = percentileSpec [10, 20, 30, 40, 50] 95 :=
  ⟨by decide, by decide, by decide,
    claim_C7_percentile.1 [10, 20, 30, 40, 50] 95 (by decide) (by decide) (by decide)⟩

/-! ### C9: the request-tracking wrapper -/

theorem lookupD_setA_self (m : List (String × α)) (k : String) (v d : α) :
    lookupD (setA m k v) k d = v := by
  simp [lookupD, lookupA_setA_self]

theorem record_request_count (m : MetricsCollector) (e : String) (rt : ℚ)
    (s : Bool) (now : ℚ) :
    lookupD (record_request m e rt s now).request_counts e 0 =
      lookupD m.request_counts e 0 + 1 := by
  unfold record_request
  cases s <;> simp [lookupD_setA_self]

theorem record_request_error_count (m : MetricsCollector) (e : String)
    (rt : ℚ) (now : ℚ) :
    lookupD (record_request m e rt false now).error_counts e 0 =
      lookupD m.error_counts e 0 + 1 := by
  unfold record_request
  simp [lookupD_setA_self]

/-- C9: the wrapper of `track_request(endpoint)` hands back the wrapped
operation's outcome unchanged (same value on success, same exception
re-raised on failure), and its entire effect on the collector is exactly one
`record_request` with the elapsed milliseconds and the success flag — so the
endpoint's request count rises by exactly one on every execution, and the
error count rises by exactly one exactly when the operation failed. -/
theorem claim_C9_track_request {ε α : Type} (m : MetricsCollector)
    (e : String) (func : Except ε α) (start fin : ℚ) :
    (track_request_wrapper m e func start fin).2 = func ∧
    (track_request_wrapper m e func start fin).1 =
      record_request m e ((fin - start) * 1000) func.isOk fin ∧
    lookupD (track_request_wrapper m e func start fin).1.request_counts e 0 =
      lookupD m.request_counts e 0 + 1 ∧
    (func.isOk = false →
      lookupD (track_request_wrapper m e func start fin).1.error_counts e 0 =
        lookupD m.error_counts e 0 + 1) := by
  cases func with
  | ok r =>
    refine ⟨rfl, rfl, ?_, ?_⟩
    · exact record_request_count m e _ true fin
    · intro h; simp [Except.isOk, Except.toBool] at h
  | error err =>
    refine ⟨rfl, rfl, ?_, ?_⟩
    · exact record_request_count m e _ false fin
    · intro _; exact record_request_error_count m e _ fin

/-- C9 witness: the wrapper applied to a concretely failing operation. -/
theorem claim_C9_witness :
    (track_request_wrapper (MetricsCollector.init 10000) "api"
        (Except.error "boom" : Except String Nat) 1 3).2 =
      Except.error "boom" ∧
    lookupD (track_request_wrapper (MetricsCollector.init 10000) "api"
        (Except.error "boom" : Except String Nat) 1 3).1.error_counts "api" 0 =
      lookupD (MetricsCollector.init 10000).error_counts "api" 0 + 1 :=
  ⟨(claim_C9_track_request (MetricsCollector.init 10000) "api"
      (Except.error "boom") 1 3).1,
    (claim_C9_track_request (MetricsCollector.init 10000) "api"
      (Except.error "boom") 1 3).2.2.2 (by decide)⟩

/-! ### C8: error categorization -/

theorem categorize_eq_spec (exception : Exc) (context : Ctx) :
    categorize_error exception context = categorizeSpec exception context := by
  simp only [categorize_error, categorizeSpec, categorySpecTable, firstMatch]
  cases hb1 : anyKeyword (strLower exception.typeName)
      ["connection", "network", "socket"] <;>
    cases hb2 : anyKeyword (strLower exception.message)
        ["connection refused", "network unreachable", "timeout"] <;>
      cases hb3 : anyKeyword (strLower exception.typeName)
          ["auth", "permission", "access"] <;>
        cases hb4 : anyKeyword (strLower exception.message)
            ["unauthorized", "forbidden", "invalid token", "api key"] <;>
          simp [hb1, hb2, hb3, hb4]

/-- C8: `categorize_error` is the spec's ordered first-match rule table —
CONNECTION, AUTHENTICATION, TIMEOUT, RATE_LIMIT, VALIDATION,
SYSTEM_RESOURCE, MCP_SERVER, then the UNKNOWN fallback — and on the spec's
examples: ConnectionError("connection refused") is CONNECTION,
ValueError("bad value") is VALIDATION, Exception("429 too many requests")
is RATE_LIMIT, and an exception matching no rule is UNKNOWN rather than
dropped. -/
theorem claim_C8_categorization :
    (∀ (exception : Exc) (context : Ctx),
      categorize_error exception context = categorizeSpec exception context) ∧
    categorize_error ⟨"ConnectionError", "connection refused"⟩ Ctx.empty =
      .CONNECTION ∧
    categorize_error ⟨"ValueError", "bad value"⟩ Ctx.empty = .VALIDATION ∧
    categorize_error ⟨"Exception", "429 too many requests"⟩ Ctx.empty =
      .RATE_LIMIT ∧
    categorize_error ⟨"Exception", "something odd"⟩ Ctx.empty = .UNKNOWN :=
  ⟨categorize_eq_spec, by decide, by decide, by decide, by decide⟩

/-! ### C3: windowed numerator over lifetime denominator -/

theorem lastN_nil (n : Nat) : lastN n ([] : List α) = [] := by
  simp [lastN]

theorem lastN_snoc_lastN (n : Nat) (xs : List α) (a : α) :
    lastN n (lastN n xs ++ [a]) = lastN n (xs ++ [a]) := by
  rcases Nat.eq_zero_or_pos n with hn | hn
  · subst hn
    unfold lastN
    rw [List.drop_of_length_le (by simp), List.drop_of_length_le (by simp)]
  · unfold lastN
    rw [List.length_append, List.length_append, List.length_drop]
    rw [List.drop_append_of_le_length (by simp; omega),
      List.drop_append_of_le_length (by simp; omega), List.drop_drop]
    congr 2
    omega

theorem record_request_true_fields (m : MetricsCollector) (ep : String)
    (rt now : ℚ) :
    (record_request m ep rt true now).error_rates = m.error_rates ∧
    (record_request m ep rt true now).request_counts =
      setA m.request_counts ep (lookupD m.request_counts ep 0 + 1) := by
  unfold record_request
  exact ⟨rfl, rfl⟩

theorem record_request_false_fields (m : MetricsCollector) (ep : String)
    (rt now : ℚ) :
    (record_request m ep rt false now).error_rates =
      setA m.error_rates ep (dequeAppend 100 (lookupD m.error_rates ep []) now) ∧
    (record_request m ep rt false now).request_counts =
      setA m.request_counts ep (lookupD m.request_counts ep 0 + 1) := by
  unfold record_request
  exact ⟨rfl, rfl⟩

theorem reqCallsFor_snoc (calls : List RCall) (c : RCall) (e : String) :
    reqCallsFor (calls ++ [c]) e =
      reqCallsFor calls e ++ (if c.endpoint = e then [c] else []) := by
  unfold reqCallsFor
  rw [List.filter_append]
  by_cases hc : c.endpoint = e <;> simp [hc]

theorem failTimesFor_snoc (calls : List RCall) (c : RCall) (e : String) :
    failTimesFor (calls ++ [c]) e =
      failTimesFor calls e ++
        (if c.endpoint = e ∧ c.success = false then [c.time] else []) := by
  unfold failTimesFor
  rw [List.filter_append, List.map_append]
  by_cases hc : c.endpoint = e <;> cases hs : c.success <;> simp [hc, hs]

theorem runRequests_invariant (ms : Nat) (calls : List RCall) :
    (∀ e, lookupD (runRequests (MetricsCollector.init ms) calls).request_counts e 0 =
      (reqCallsFor calls e).length) ∧
    (∀ e, lookupA (runRequests (MetricsCollector.init ms) calls).error_rates e =
      if failTimesFor calls e = [] then none
      else some (lastN 100 (failTimesFor calls e))) := by
  induction calls using List.reverseRecOn with
  | nil =>
    constructor <;> intro e <;>
      simp [runRequests, MetricsCollector.init, lookupD, lookupA,
        reqCallsFor, failTimesFor]
  | append_singleton calls c ih =>
    have hrun : runRequests (MetricsCollector.init ms) (calls ++ [c]) =
        record_request (runRequests (MetricsCollector.init ms) calls)
          c.endpoint c.response_time c.success c.time := by
      simp [runRequests, List.foldl_append]
    obtain ⟨iha, ihb⟩ := ih
    constructor
    · intro e
      rw [hrun, reqCallsFor_snoc]
      have hrc : (record_request (runRequests (MetricsCollector.init ms) calls)
          c.endpoint c.response_time c.success c.time).request_counts =
          setA (runRequests (MetricsCollector.init ms) calls).request_counts
            c.endpoint
            (lookupD (runRequests (MetricsCollector.init ms) calls).request_counts
              c.endpoint 0 + 1) := by
        cases hs : c.success
        · exact (record_request_false_fields _ _ _ _).2
        · exact (record_request_true_fields _ _ _ _).2
      rw [hrc]
      by_cases he : c.endpoint = e
      · subst he
        rw [lookupD, lookupA_setA_self, Option.getD_some, iha c.endpoint]
        simp
      · rw [lookupD, lookupA_setA_ne _ _ _ _ he, ← lookupD, iha e]
        simp [he]
    · intro e
      rw [hrun, failTimesFor_snoc]
      cases hs : c.success
      · have her : (record_request (runRequests (MetricsCollector.init ms) calls)
            c.endpoint c.response_time false c.time).error_rates =
            setA (runRequests (MetricsCollector.init ms) calls).error_rates
              c.endpoint
              (dequeAppend 100
                (lookupD (runRequests (MetricsCollector.init ms) calls).error_rates
                  c.endpoint [])
                c.time) :=
          (record_request_false_fields _ _ _ _).1
        rw [her]
        by_cases he : c.endpoint = e
        · subst he
          rw [lookupA_setA_self]
          simp only [and_true, if_pos rfl]
          have hd : lookupD (runRequests (MetricsCollector.init ms) calls).error_rates
              c.endpoint [] =
              lastN 100 (failTimesFor calls c.endpoint) := by
            rw [lookupD, ihb c.endpoint]
            by_cases hf : failTimesFor calls c.endpoint = []
            · simp [hf, lastN_nil]
            · simp [hf]
          rw [hd, dequeAppend_eq_lastN, lastN_snoc_lastN]
          simp
        · rw [lookupA_setA_ne _ _ _ _ he, ihb e]
          simp [he]
      · have her : (record_request (runRequests (MetricsCollector.init ms) calls)
            c.endpoint c.response_time true c.time).error_rates =
            (runRequests (MetricsCollector.init ms) calls).error_rates :=
          (record_request_true_fields _ _ _ _).1
        rw [her, ihb e]
        simp

theorem reqCallsFor_ne_nil_of_fail (calls : List RCall) (e : String)
    (h : failTimesFor calls e ≠ []) : (reqCallsFor calls e).length ≠ 0 := by
  unfold failTimesFor at h
  have hfil : calls.filter (fun c => c.endpoint == e && !c.success) ≠ [] := by
    intro hnil
    rw [hnil] at h
    exact h rfl
  obtain ⟨c, hc⟩ := List.exists_mem_of_ne_nil _ hfil
  have hc2 := List.mem_filter.mp hc
  have hcond := hc2.2
  simp only [Bool.and_eq_true, beq_iff_eq, Bool.not_eq_true'] at hcond
  have hmem : c ∈ reqCallsFor calls e :=
    List.mem_filter.mpr ⟨hc2.1, by simp [hcond.1]⟩
  have hpos := List.length_pos.mpr (List.ne_nil_of_mem hmem)
  omega

/-- C3: after any sequence of `record_request` calls, `get_error_rate`
divides the windowed failure count (failure timestamps still in the
100-entry ring that are newer than `now − window`) by the lifetime request
total of the endpoint, times 100 — the numerator is windowed, the
denominator is not (division by zero is the code's 0 fallback, which is
also `ℚ`'s convention). -/
theorem claim_C3_error_rate (ms : Nat) (calls : List RCall) (e : String)
    (w now : ℚ) :
    get_error_rate (runRequests (MetricsCollector.init ms) calls) e w now =
      (((lastN 100 (failTimesFor calls e)).filter
          (fun s => decide (now - w * 60 < s))).length : ℚ) /
        ((reqCallsFor calls e).length : ℚ) * 100 := by
  obtain ⟨ha, hb⟩ := runRequests_invariant ms calls
  unfold get_error_rate
  rw [hb e]
  by_cases hf : failTimesFor calls e = []
  · simp [hf, lastN_nil]
  · rw [if_neg hf]
    dsimp only
    rw [ha e, if_neg (by exact_mod_cast reqCallsFor_ne_nil_of_fail calls e hf)]

/-! ### C1 and C10: deduplication and the frame of an update -/

theorem prune_errors_of_le (t : ErrorTracker)
    (h : t.errors.length ≤ t.max_errors) : prune_errors t = t := by
  unfold prune_errors
  rw [if_neg (by omega)]

theorem generate_error_id_congr (e1 e2 : Exc) (c1 c2 : Ctx)
    (h1 : e1.typeName = e2.typeName) (h2 : e1.message = e2.message)
    (h3 : c1.function = c2.function) :
    generate_error_id e1 c1 = generate_error_id e2 c2 := by
  unfold generate_error_id
  rw [h1, h2, h3]

theorem prune_check_errors (t1 : ErrorTracker) (ev : ErrorEvent) (now : ℚ)
    (h : t1.errors.length ≤ t1.max_errors) :
    (prune_errors (check_alert_conditions t1 ev now).1).errors = t1.errors := by
  have hf := check_alert_conditions_frame t1 ev now
  rw [prune_errors_of_le _ (by rw [hf.1, hf.2.2.1]; exact h), hf.1]

theorem track_error_existing (t : ErrorTracker) (exc : Exc) (ctx : Ctx)
    (st : String) (now : ℚ) (ev : ErrorEvent)
    (hfound : lookupA t.errors (generate_error_id exc ctx) = some ev)
    (hlen : t.errors.length ≤ t.max_errors) :
    (track_error t exc ctx st now).errors =
      setA t.errors (generate_error_id exc ctx)
        { ev with count := ev.count + 1, last_seen := now, severity := determine_severity (categorize_error exc ctx) (ev.count + 1) ctx } := by
  unfold track_error track_error_core
  dsimp only
  rw [hfound]
  dsimp only
  refine (prune_check_errors _ _ _ ?_).trans ?_
  · dsimp only
    rw [length_setA_of_mem _ _ _ _ hfound]
    exact hlen
  · rfl

theorem track_error_new (t : ErrorTracker) (exc : Exc) (ctx : Ctx)
    (st : String) (now : ℚ)
    (hnone : lookupA t.errors (generate_error_id exc ctx) = none)
    (hlen : t.errors.length + 1 ≤ t.max_errors) :
    (track_error t exc ctx st now).errors =
      setA t.errors (generate_error_id exc ctx)
        { id := generate_error_id exc ctx, timestamp := now,
          category := categorize_error exc ctx,
          severity := determine_severity (categorize_error exc ctx) 1 ctx,
          message := exc.message, exception_type := exc.typeName,
          stack_trace := st, context := ctx, count := 1,
          first_seen := now, last_seen := now } := by
  unfold track_error track_error_core
  dsimp only
  rw [hnone]
  dsimp only
  refine (prune_check_errors _ _ _ ?_).trans ?_
  · dsimp only
    rw [length_setA_of_absent _ _ _ hnone]
    exact hlen
  · rfl

theorem runTrack_singleton (exc0 : Exc) (ctx0 : Ctx) :
    ∀ (calls : List Call) (t : ErrorTracker) (ev : ErrorEvent),
      t.errors = [(generate_error_id exc0 ctx0, ev)] →
      1 ≤ t.max_errors →
      (∀ c ∈ calls, c.exc.typeName = exc0.typeName ∧
        c.exc.message = exc0.message ∧ c.ctx.function = ctx0.function) →
      ∃ ev', (runTrack t calls).errors = [(generate_error_id exc0 ctx0, ev')] ∧
        ev'.count = ev.count + calls.length ∧ ev'.id = ev.id := by
  intro calls
  induction calls with
  | nil =>
    intro t ev h hm _
    exact ⟨ev, h, by simp, rfl⟩
  | cons c rest ih =>
    intro t ev h hm hall
    have hc := hall c (by simp)
    have hsig : generate_error_id c.exc c.ctx = generate_error_id exc0 ctx0 :=
      generate_error_id_congr _ _ _ _ hc.1 hc.2.1 hc.2.2
    have hfound : lookupA t.errors (generate_error_id c.exc c.ctx) = some ev := by
      rw [h, hsig]
      simp [lookupA]
    have hlen : t.errors.length ≤ t.max_errors := by
      rw [h]
      simpa using hm
    have hupd := track_error_existing t c.exc c.ctx c.stack c.time ev hfound hlen
    rw [h, hsig] at hupd
    have herr : (track_error t c.exc c.ctx c.stack c.time).errors =
        [(generate_error_id exc0 ctx0,
          { ev with count := ev.count + 1, last_seen := c.time, severity := determine_severity (categorize_error c.exc c.ctx) (ev.count + 1) c.ctx })] := by
      rw [hupd]
      simp [setA]
    have hm' : 1 ≤ (track_error t c.exc c.ctx c.stack c.time).max_errors := by
      rw [(track_error_frame t c.exc c.ctx c.stack c.time).1]
      exact hm
    obtain ⟨ev', h1, h2, h3⟩ := ih (track_error t c.exc c.ctx c.stack c.time) _
      herr hm' (fun c' hc' => hall c' (by simp [hc']))
    refine ⟨ev', h1, ?_, h3⟩
    rw [h2]
    simp
    omega

set_option maxHeartbeats 1000000 in
/-- C1: `generate_error_id` is a deterministic function of exactly the
exception type name, the message, and the context's `function` entry; and
from a fresh default tracker, any nonempty sequence of `track_error` calls
sharing that signature leaves exactly one ErrorEvent — keyed by that id,
carrying that id, with `count` equal to the number of calls. -/
theorem claim_C1_dedup :
    (∀ (e1 e2 : Exc) (c1 c2 : Ctx), e1.typeName = e2.typeName →
      e1.message = e2.message → c1.function = c2.function →
      generate_error_id e1 c1 = generate_error_id e2 c2) ∧
    (∀ (exc0 : Exc) (ctx0 : Ctx) (calls : List Call), calls ≠ [] →
      (∀ c ∈ calls, c.exc.typeName = exc0.typeName ∧
        c.exc.message = exc0.message ∧ c.ctx.function = ctx0.function) →
      ∃ ev, (runTrack (ErrorTracker.init 5000) calls).errors =
          [(generate_error_id exc0 ctx0, ev)] ∧
        ev.id = generate_error_id exc0 ctx0 ∧ ev.count = calls.length) := by
  constructor
  · exact generate_error_id_congr
  · intro exc0 ctx0 calls hne hall
    cases calls with
    | nil => exact absurd rfl hne
    | cons c rest =>
      have hc := hall c (by simp)
      have hsig : generate_error_id c.exc c.ctx = generate_error_id exc0 ctx0 :=
        generate_error_id_congr _ _ _ _ hc.1 hc.2.1 hc.2.2
      have hnone : lookupA (ErrorTracker.init 5000).errors
          (generate_error_id c.exc c.ctx) = none := by
        simp [ErrorTracker.init, lookupA]
      have h1 := track_error_new (ErrorTracker.init 5000) c.exc c.ctx c.stack
        c.time hnone (by simp [ErrorTracker.init])
      rw [hsig] at h1
      have herr : (track_error (ErrorTracker.init 5000) c.exc c.ctx c.stack
          c.time).errors =
          [(generate_error_id exc0 ctx0,
            { id := generate_error_id exc0 ctx0, timestamp := c.time, category := categorize_error c.exc c.ctx, severity := determine_severity (categorize_error c.exc c.ctx) 1 c.ctx, message := c.exc.message, exception_type := c.exc.typeName, stack_trace := c.stack, context := c.ctx, count := 1, first_seen := c.time, last_seen := c.time })] := by
        rw [h1]
        simp [ErrorTracker.init, setA]
      have hm' : 1 ≤ (track_error (ErrorTracker.init 5000) c.exc c.ctx c.stack
          c.time).max_errors := by
        rw [(track_error_frame _ _ _ _ _).1]
        simp [ErrorTracker.init]
      obtain ⟨ev', hE, hC, hI⟩ := runTrack_singleton exc0 ctx0 rest _ _ herr hm'
        (fun c' hc' => hall c' (by simp [hc']))
      exact ⟨ev', hE, hI, by rw [hC]; simp; omega⟩

/-- C1 witness: two identical failures collapse into one event with
count 2. -/
theorem claim_C1_witness :
    ([⟨⟨"AError", "a"⟩, Ctx.empty, "", 0⟩,
      ⟨⟨"AError", "a"⟩, Ctx.empty, "", 1⟩] : List Call) ≠ [] ∧
    ∃ ev, (runTrack (ErrorTracker.init 5000)
        [⟨⟨"AError", "a"⟩, Ctx.empty, "", 0⟩,
         ⟨⟨"AError", "a"⟩, Ctx.empty, "", 1⟩]).errors =
      [(generate_error_id ⟨"AError", "a"⟩ Ctx.empty, ev)] ∧
      ev.id = generate_error_id ⟨"AError", "a"⟩ Ctx.empty ∧ ev.count = 2 :=
  ⟨by decide,
    claim_C1_dedup.2 ⟨"AError", "a"⟩ Ctx.empty
      [⟨⟨"AError", "a"⟩, Ctx.empty, "", 0⟩,
       ⟨⟨"AError", "a"⟩, Ctx.empty, "", 1⟩]
      (by decide) (by decide)⟩

/-- C10: when `track_error` sees an id already in the map, the stored
event keeps its message, exception type, stack trace, context, category,
timestamp and first_seen; only `count` (plus one), `last_seen` (the call's
clock) and `severity` change — and the severity is recomputed from the
current call's freshly computed category, not from the stored one. -/
theorem claim_C10_update_frame (t : ErrorTracker) (exc : Exc) (ctx : Ctx)
    (st : String) (now : ℚ) (ev : ErrorEvent)
    (hfound : lookupA t.errors (generate_error_id exc ctx) = some ev)
    (hlen : t.errors.length ≤ t.max_errors) :
    ∃ ev', lookupA (track_error t exc ctx st now).errors
        (generate_error_id exc ctx) = some ev' ∧
      ev'.message = ev.message ∧ ev'.exception_type = ev.exception_type ∧
      ev'.stack_trace = ev.stack_trace ∧ ev'.context = ev.context ∧
      ev'.category = ev.category ∧ ev'.timestamp = ev.timestamp ∧
      ev'.first_seen = ev.first_seen ∧ ev'.id = ev.id ∧
      ev'.count = ev.count + 1 ∧ ev'.last_seen = now ∧
      ev'.severity = determine_severity (categorize_error exc ctx)
        (ev.count + 1) ctx := by
  refine ⟨{ ev with count := ev.count + 1, last_seen := now, severity := determine_severity (categorize_error exc ctx) (ev.count + 1) ctx },
    ?_, rfl, rfl, rfl, rfl, rfl, rfl, rfl, rfl, rfl, rfl, rfl⟩
  rw [track_error_existing t exc ctx st now ev hfound hlen]
  exact lookupA_setA_self _ _ _

/-- C10 witness: four `mcp_server`-context calls store an event with
category MCP_SERVER and severity HIGH; a fifth call with the same signature
but an empty context leaves category (and context) untouched while the
recomputed severity uses the new call's UNKNOWN category — LOW, where the
stored MCP_SERVER category would have given HIGH at count 5. -/
theorem claim_C10_witness :
    ∃ ev', lookupA (track_error
        (runTrack (ErrorTracker.init 5000)
          [⟨⟨"OddError", "x"⟩, ⟨none, some "mcp_server", none, 0⟩, "", 0⟩,
           ⟨⟨"OddError", "x"⟩, ⟨none, some "mcp_server", none, 0⟩, "", 0⟩,
           ⟨⟨"OddError", "x"⟩, ⟨none, some "mcp_server", none, 0⟩, "", 0⟩,
           ⟨⟨"OddError", "x"⟩, ⟨none, some "mcp_server", none, 0⟩, "", 0⟩])
        ⟨"OddError", "x"⟩ Ctx.empty "" 5).errors
        (generate_error_id ⟨"OddError", "x"⟩ Ctx.empty) = some ev' ∧
      ev'.category = .MCP_SERVER ∧
      ev'.context = ⟨none, some "mcp_server", none, 0⟩ ∧
      ev'.count = 5 ∧ ev'.last_seen = 5 ∧ ev'.severity = .LOW := by
  obtain ⟨ev', hl, hmsg, hty, hst, hctx, hcat, hts, hfs, hid, hcnt, hls, hsev⟩ :=
    claim_C10_update_frame
      (runTrack (ErrorTracker.init 5000)
        [⟨⟨"OddError", "x"⟩, ⟨none, some "mcp_server", none, 0⟩, "", 0⟩,
         ⟨⟨"OddError", "x"⟩, ⟨none, some "mcp_server", none, 0⟩, "", 0⟩,
         ⟨⟨"OddError", "x"⟩, ⟨none, some "mcp_server", none, 0⟩, "", 0⟩,
         ⟨⟨"OddError", "x"⟩, ⟨none, some "mcp_server", none, 0⟩, "", 0⟩])
      ⟨"OddError", "x"⟩ Ctx.empty "" 5
      { id := "OddError:x:", timestamp := 0, category := .MCP_SERVER,
        severity := .HIGH, message := "x", exception_type := "OddError",
        stack_trace := "",
        context := ⟨none, some "mcp_server", none, 0⟩, count := 4,
        first_seen := 0, last_seen := 0 }
      (by decide) (by decide)
  refine ⟨ev', hl, ?_, ?_, ?_, ?_, ?_⟩
  · rw [hcat]
  · rw [hctx]
  · rw [hcnt]
  · rw [hls]
  · rw [hsev]
    decide

/-! ### C6: capacity pruning -/

theorem prune_errors_filter (t : ErrorTracker) (h : t.max_errors < t.errors.length) :
    (prune_errors t).errors =
      t.errors.filter (fun p =>
        !(((t.errors.insertionSort
            (fun a b => a.2.last_seen ≤ b.2.last_seen)).take 100).any
          (fun q => q.2.id == p.2.id))) := by
  unfold prune_errors
  rw [if_pos h]

theorem filter_keep_take_nil (l : List (String × ErrorEvent)) (n : Nat) :
    (l.take n).filter
      (fun p => !((l.take n).any (fun q => q.2.id == p.2.id))) = [] := by
  rw [List.filter_eq_nil_iff]
  intro p hp
  simp only [Bool.not_eq_true', Bool.not_eq_false, List.any_eq_true]
  exact ⟨p, hp, by simp⟩

theorem filter_keep_drop (l : List (String × ErrorEvent)) (n : Nat)
    (hnod : (l.map (fun p => p.2.id)).Nodup) :
    l.filter (fun p => !((l.take n).any (fun q => q.2.id == p.2.id))) =
      l.drop n := by
  have hnod2 : ((l.take n).map (fun p => p.2.id) ++
      (l.drop n).map (fun p => p.2.id)).Nodup := by
    rw [← List.map_append, List.take_append_drop]
    exact hnod
  obtain ⟨-, -, hdisj⟩ := List.nodup_append.mp hnod2
  have h2 : (l.drop n).filter
      (fun p => !((l.take n).any (fun q => q.2.id == p.2.id))) = l.drop n := by
    rw [List.filter_eq_self]
    intro p hp
    simp only [Bool.not_eq_true', List.any_eq_false]
    intro q hq hbeq
    refine hdisj (List.mem_map_of_mem _ hq) ?_
    have hqp : q.2.id = p.2.id := by simpa using hbeq
    rw [hqp]
    exact List.mem_map_of_mem _ hp
  have key : (l.take n ++ l.drop n).filter
      (fun p => !((l.take n).any (fun q => q.2.id == p.2.id))) = l.drop n := by
    rw [List.filter_append, filter_keep_take_nil, h2, List.nil_append]
  rw [List.take_append_drop] at key
  exact key

theorem prune_errors_perm_drop (t : ErrorTracker)
    (h : t.max_errors < t.errors.length)
    (hnodup : (t.errors.map (fun p => p.2.id)).Nodup) :
    (prune_errors t).errors.Perm
      ((t.errors.insertionSort
        (fun a b => a.2.last_seen ≤ b.2.last_seen)).drop 100) := by
  have hperm : (t.errors.insertionSort
      (fun a b => a.2.last_seen ≤ b.2.last_seen)).Perm t.errors :=
    List.perm_insertionSort _ _
  have hnodS : ((t.errors.insertionSort
      (fun a b => a.2.last_seen ≤ b.2.last_seen)).map (fun p => p.2.id)).Nodup :=
    (hperm.map (fun p => p.2.id)).nodup_iff.mpr hnodup
  rw [prune_errors_filter t h]
  refine ((hperm.filter _).symm).trans ?_
  rw [filter_keep_drop _ 100 hnodS]

theorem prune_errors_length (t : ErrorTracker)
    (h : t.max_errors < t.errors.length)
    (hnodup : (t.errors.map (fun p => p.2.id)).Nodup) :
    (prune_errors t).errors.length = t.errors.length - 100 := by
  rw [(prune_errors_perm_drop t h hnodup).length_eq]
  simp

theorem prune_errors_length_le (t : ErrorTracker) :
    (prune_errors t).errors.length ≤ t.errors.length := by
  unfold prune_errors
  split
  · exact List.length_filter_le _ _
  · exact le_refl _

theorem length_setA_le (m : List (String × α)) (k : String) (v : α) :
    (setA m k v).length ≤ m.length + 1 := by
  cases h : lookupA m k with
  | none => rw [length_setA_of_absent m k v h]
  | some w => rw [length_setA_of_mem m k v w h]; omega

theorem prune_errors_errors_congr (t1 t2 : ErrorTracker)
    (he : t1.errors = t2.errors) (hm : t1.max_errors = t2.max_errors) :
    (prune_errors t1).errors = (prune_errors t2).errors := by
  unfold prune_errors
  rw [he, hm]
  split
  · simp [he]
  · exact he

theorem prune_errors_length_bound (t : ErrorTracker)
    (h : t.max_errors < t.errors.length) :
    (prune_errors t).errors.length ≤ t.errors.length - 100 := by
  have hperm : (t.errors.insertionSort
      (fun a b => a.2.last_seen ≤ b.2.last_seen)).Perm t.errors :=
    List.perm_insertionSort _ _
  rw [prune_errors_filter t h]
  rw [((hperm.filter (fun p =>
      !(((t.errors.insertionSort
          (fun a b => a.2.last_seen ≤ b.2.last_seen)).take 100).any
        (fun q => q.2.id == p.2.id)))).symm).length_eq]
  have key : ((t.errors.insertionSort
        (fun a b => a.2.last_seen ≤ b.2.last_seen)).take 100 ++
      (t.errors.insertionSort
        (fun a b => a.2.last_seen ≤ b.2.last_seen)).drop 100).filter
      (fun p => !(((t.errors.insertionSort
          (fun a b => a.2.last_seen ≤ b.2.last_seen)).take 100).any
        (fun q => q.2.id == p.2.id))) =
      ((t.errors.insertionSort
        (fun a b => a.2.last_seen ≤ b.2.last_seen)).drop 100).filter
      (fun p => !(((t.errors.insertionSort
          (fun a b => a.2.last_seen ≤ b.2.last_seen)).take 100).any
        (fun q => q.2.id == p.2.id))) := by
    rw [List.filter_append, filter_keep_take_nil, List.nil_append]
  rw [List.take_append_drop] at key
  rw [key]
  calc (((t.errors.insertionSort
        (fun a b => a.2.last_seen ≤ b.2.last_seen)).drop 100).filter
      (fun p => !(((t.errors.insertionSort
          (fun a b => a.2.last_seen ≤ b.2.last_seen)).take 100).any
        (fun q => q.2.id == p.2.id)))).length
      ≤ ((t.errors.insertionSort
        (fun a b => a.2.last_seen ≤ b.2.last_seen)).drop 100).length :=
        List.length_filter_le _ _
    _ = t.errors.length - 100 := by
        rw [List.length_drop, hperm.length_eq]

theorem prune_check_length_le (t : ErrorTracker)
    (mid : List (String × ErrorEvent)) (ring : List RecentError)
    (ev : ErrorEvent) (now : ℚ)
    (hmlen : mid.length ≤ t.errors.length + 1)
    (hlen : t.errors.length ≤ t.max_errors) :
    (prune_errors (check_alert_conditions
      { t with errors := mid, recent_errors := ring } ev now).1).errors.length ≤
      t.max_errors := by
  have hcf := check_alert_conditions_frame
    { t with errors := mid, recent_errors := ring } ev now
  rw [prune_errors_errors_congr _ { t with errors := mid, recent_errors := ring }
    hcf.1 hcf.2.2.1]
  by_cases hov : t.max_errors < mid.length
  · have hb := prune_errors_length_bound
      { t with errors := mid, recent_errors := ring } hov
    dsimp only at hb
    omega
  · push_neg at hov
    rw [prune_errors_of_le _ hov]
    exact hov

theorem track_error_length_le (t : ErrorTracker) (exc : Exc) (ctx : Ctx)
    (st : String) (now : ℚ) (hlen : t.errors.length ≤ t.max_errors) :
    (track_error t exc ctx st now).errors.length ≤ t.max_errors := by
  unfold track_error track_error_core
  dsimp only
  exact prune_check_length_le t _ _ _ now (length_setA_le _ _ _) hlen

theorem prune_errors_subset (t : ErrorTracker) :
    ∀ p ∈ (prune_errors t).errors, p ∈ t.errors := by
  intro p hp
  by_cases h : t.max_errors < t.errors.length
  · rw [prune_errors_filter t h] at hp
    exact (List.mem_filter.mp hp).1
  · rw [prune_errors_of_le t (by omega)] at hp
    exact hp

theorem prune_errors_oldest (t : ErrorTracker)
    (h : t.max_errors < t.errors.length)
    (hnodup : (t.errors.map (fun p => p.2.id)).Nodup) :
    ∀ p ∈ t.errors, p ∉ (prune_errors t).errors →
      ∀ q ∈ (prune_errors t).errors, p.2.last_seen ≤ q.2.last_seen := by
  intro p hpe hpk q hq
  have hperm : (t.errors.insertionSort
      (fun a b => a.2.last_seen ≤ b.2.last_seen)).Perm t.errors :=
    List.perm_insertionSort _ _
  have hkept := prune_errors_perm_drop t h hnodup
  have hqd : q ∈ (t.errors.insertionSort
      (fun a b => a.2.last_seen ≤ b.2.last_seen)).drop 100 :=
    hkept.mem_iff.mp hq
  have hpL : p ∈ t.errors.insertionSort
      (fun a b => a.2.last_seen ≤ b.2.last_seen) :=
    hperm.mem_iff.mpr hpe
  have hpsplit : p ∈ ((t.errors.insertionSort
      (fun a b => a.2.last_seen ≤ b.2.last_seen)).take 100 ++
      (t.errors.insertionSort
        (fun a b => a.2.last_seen ≤ b.2.last_seen)).drop 100) := by
    rw [List.take_append_drop]
    exact hpL
  have hpt : p ∈ (t.errors.insertionSort
      (fun a b => a.2.last_seen ≤ b.2.last_seen)).take 100 := by
    rcases List.mem_append.mp hpsplit with hin | hin
    · exact hin
    · exact absurd (hkept.mem_iff.mpr hin) hpk
  haveI : IsTotal (String × ErrorEvent)
      (fun a b => a.2.last_seen ≤ b.2.last_seen) :=
    ⟨fun a b => le_total a.2.last_seen b.2.last_seen⟩
  haveI : IsTrans (String × ErrorEvent)
      (fun a b => a.2.last_seen ≤ b.2.last_seen) :=
    ⟨fun _ _ _ hab hbc => le_trans hab hbc⟩
  have hs : List.Pairwise (fun a b => a.2.last_seen ≤ b.2.last_seen)
      ((t.errors.insertionSort
        (fun a b => a.2.last_seen ≤ b.2.last_seen)).take 100 ++
       (t.errors.insertionSort
        (fun a b => a.2.last_seen ≤ b.2.last_seen)).drop 100) := by
    rw [List.take_append_drop]
    exact List.sorted_insertionSort _ _
  obtain ⟨-, -, hcross⟩ := List.pairwise_append.mp hs
  exact hcross p hpt q hqd

/-- C6 amended: a `track_error` call that pushes the map past `max_errors`
triggers one pruning pass that removes exactly `min(100, size)` entries —
exactly 100 whenever at least 100 are present — chosen among the smallest
`last_seen` (every removed entry is no newer than any kept one, and kept
entries come from the old map); no pass runs while the cap is respected;
and starting at or below the cap, the map again holds at most `max_errors`
entries after every call. -/
theorem claim_C6_eviction :
    (∀ (t : ErrorTracker) (exc : Exc) (ctx : Ctx) (st : String) (now : ℚ),
      t.errors.length ≤ t.max_errors →
      (track_error t exc ctx st now).errors.length ≤ t.max_errors) ∧
    (∀ t : ErrorTracker, t.errors.length ≤ t.max_errors → prune_errors t = t) ∧
    (∀ t : ErrorTracker, t.max_errors < t.errors.length →
      (t.errors.map (fun p => p.2.id)).Nodup →
      (prune_errors t).errors.length = t.errors.length - 100 ∧
      (∀ p ∈ (prune_errors t).errors, p ∈ t.errors) ∧
      (∀ p ∈ t.errors, p ∉ (prune_errors t).errors →
        ∀ q ∈ (prune_errors t).errors, p.2.last_seen ≤ q.2.last_seen)) :=
  ⟨track_error_length_le, prune_errors_of_le,
    fun t h hn => ⟨prune_errors_length t h hn, prune_errors_subset t,
      prune_errors_oldest t h hn⟩⟩

/-- C6 counterexample: with `max_errors = 3`, the fourth distinct error
exceeds the cap while only four entries exist, and the pruning pass removes
all four of them — the claimed "exactly 100" is impossible there. -/
theorem claim_C6_counterexample :
    (runTrack (ErrorTracker.init 3)
      [⟨⟨"AError", "a"⟩, Ctx.empty, "", 0⟩,
       ⟨⟨"BError", "b"⟩, Ctx.empty, "", 1⟩,
       ⟨⟨"CError", "c"⟩, Ctx.empty, "", 2⟩]).errors.length = 3 ∧
    (runTrack (ErrorTracker.init 3)
      [⟨⟨"AError", "a"⟩, Ctx.empty, "", 0⟩,
       ⟨⟨"BError", "b"⟩, Ctx.empty, "", 1⟩,
       ⟨⟨"CError", "c"⟩, Ctx.empty, "", 2⟩,
       ⟨⟨"DError", "d"⟩, Ctx.empty, "", 3⟩]).errors.length = 0 ∧
    3 + 1 - (0 : Nat) ≠ 100 :=
  ⟨by decide, by decide, by decide⟩

/-- C6 witness: the pruning pass applied to a concrete over-capacity map of
three events removes min(100, 3) = 3 of them. -/
theorem claim_C6_witness :
    (2 : Nat) < 3 ∧
    (prune_errors ⟨2,
      [("a", ⟨"a", 0, .UNKNOWN, .LOW, "m", "T", "", Ctx.empty, 1, 0, 5⟩),
       ("b", ⟨"b", 0, .UNKNOWN, .LOW, "m", "T", "", Ctx.empty, 1, 0, 1⟩),
       ("c", ⟨"c", 0, .UNKNOWN, .LOW, "m", "T", "", Ctx.empty, 1, 0, 3⟩)],
      [], [], [], []⟩).errors.length = 3 - 100 :=
  ⟨by decide,
    (claim_C6_eviction.2.2 ⟨2,
      [("a", ⟨"a", 0, .UNKNOWN, .LOW, "m", "T", "", Ctx.empty, 1, 0, 5⟩),
       ("b", ⟨"b", 0, .UNKNOWN, .LOW, "m", "T", "", Ctx.empty, 1, 0, 1⟩),
       ("c", ⟨"c", 0, .UNKNOWN, .LOW, "m", "T", "", Ctx.empty, 1, 0, 3⟩)],
      [], [], [], []⟩ (by decide) (by decide)).1⟩

/-! ### C4: alert cooldown -/

theorem create_alert_lat (t : ErrorTracker) (rule : AlertRule)
    (actx : AlertCtx) (now : ℚ) :
    (create_alert t rule actx now).last_alert_times = t.last_alert_times := rfl

theorem check_rule_step_cases (eid : String) (actx : AlertCtx) (now : ℚ)
    (acc : ErrorTracker × List String) (rule : AlertRule) :
    check_rule_step eid actx now acc rule = acc ∨
    ((match lookupA acc.1.last_alert_times (rule.name ++ "_" ++ eid) with
        | some lastT => decide (now - lastT < rule.cooldown_seconds)
        | none => false) = false ∧
      (check_rule_step eid actx now acc rule).1.last_alert_times =
        setA acc.1.last_alert_times (rule.name ++ "_" ++ eid) now ∧
      (check_rule_step eid actx now acc rule).2 =
        acc.2 ++ [rule.name ++ "_" ++ eid]) := by
  unfold check_rule_step
  dsimp only
  split
  · exact Or.inl rfl
  · split
    · exact Or.inl rfl
    · split
      · right
        refine ⟨?_, rfl, rfl⟩
        rename_i hcool _
        simpa using hcool
      · exact Or.inl rfl

theorem check_rule_step_PQ (eid : String) (actx : AlertCtx) (now : ℚ)
    (t0 : ErrorTracker) (acc : ErrorTracker × List String) (rule : AlertRule)
    (hP : ∀ k ∈ acc.2, lookupA acc.1.last_alert_times k = some now)
    (hQ : ∀ k, lookupA acc.1.last_alert_times k =
        lookupA t0.last_alert_times k ∨
      (k ∈ acc.2 ∧ lookupA acc.1.last_alert_times k = some now)) :
    (∀ k ∈ (check_rule_step eid actx now acc rule).2,
      lookupA (check_rule_step eid actx now acc rule).1.last_alert_times k =
        some now) ∧
    (∀ k, lookupA (check_rule_step eid actx now acc rule).1.last_alert_times k =
        lookupA t0.last_alert_times k ∨
      (k ∈ (check_rule_step eid actx now acc rule).2 ∧
        lookupA (check_rule_step eid actx now acc rule).1.last_alert_times k =
          some now)) := by
  rcases check_rule_step_cases eid actx now acc rule with hstep | ⟨-, hlat, hfired⟩
  · rw [hstep]
    exact ⟨hP, hQ⟩
  · constructor
    · intro k hk
      rw [hfired] at hk
      rw [hlat]
      by_cases hkey : rule.name ++ "_" ++ eid = k
      · rw [← hkey, lookupA_setA_self]
      · rw [lookupA_setA_ne _ _ _ _ hkey]
        rcases List.mem_append.mp hk with hk2 | hk2
        · exact hP k hk2
        · simp at hk2
          exact absurd hk2.symm hkey
    · intro k
      rw [hfired, hlat]
      by_cases hkey : rule.name ++ "_" ++ eid = k
      · right
        rw [← hkey, lookupA_setA_self]
        exact ⟨List.mem_append.mpr (Or.inr (by simp)), rfl⟩
      · rw [lookupA_setA_ne _ _ _ _ hkey]
        rcases hQ k with hq | ⟨hq1, hq2⟩
        · exact Or.inl hq
        · exact Or.inr ⟨List.mem_append.mpr (Or.inl hq1), hq2⟩

theorem check_rule_step_R (eid : String) (actx : AlertCtx) (now : ℚ)
    (t0 : ErrorTracker) (cd : ℚ) (hcd0 : 0 < cd)
    (acc : ErrorTracker × List String) (rule : AlertRule)
    (hr : rule.cooldown_seconds = cd)
    (hQ : ∀ k, lookupA acc.1.last_alert_times k =
        lookupA t0.last_alert_times k ∨
      (k ∈ acc.2 ∧ lookupA acc.1.last_alert_times k = some now))
    (hR : ∀ k ∈ acc.2, lookupA t0.last_alert_times k = none ∨
      ∃ s, lookupA t0.last_alert_times k = some s ∧ cd ≤ now - s) :
    ∀ k ∈ (check_rule_step eid actx now acc rule).2,
      lookupA t0.last_alert_times k = none ∨
      ∃ s, lookupA t0.last_alert_times k = some s ∧ cd ≤ now - s := by
  rcases check_rule_step_cases eid actx now acc rule with hstep | ⟨hcool, -, hfired⟩
  · rw [hstep]
    exact hR
  · intro k hk
    rw [hfired] at hk
    rcases List.mem_append.mp hk with hk2 | hk2
    · exact hR k hk2
    · simp at hk2
      subst hk2
      rcases hQ (rule.name ++ "_" ++ eid) with hq | ⟨-, hq2⟩
      · rw [← hq]
        cases hacc : lookupA acc.1.last_alert_times (rule.name ++ "_" ++ eid) with
        | none => exact Or.inl rfl
        | some s =>
          right
          refine ⟨s, rfl, ?_⟩
          rw [hacc, hr] at hcool
          simpa using of_decide_eq_false hcool
      · rw [hq2, hr] at hcool
        simp at hcool
        exact absurd hcd0 (by simpa using hcool)

theorem check_fold_PQ (eid : String) (actx : AlertCtx) (now : ℚ)
    (t0 : ErrorTracker) :
    ∀ (rules : List AlertRule) (acc : ErrorTracker × List String),
      (∀ k ∈ acc.2, lookupA acc.1.last_alert_times k = some now) →
      (∀ k, lookupA acc.1.last_alert_times k =
          lookupA t0.last_alert_times k ∨
        (k ∈ acc.2 ∧ lookupA acc.1.last_alert_times k = some now)) →
      (∀ k ∈ (rules.foldl (check_rule_step eid actx now) acc).2,
        lookupA (rules.foldl
          (check_rule_step eid actx now) acc).1.last_alert_times k = some now) ∧
      (∀ k, lookupA (rules.foldl
          (check_rule_step eid actx now) acc).1.last_alert_times k =
          lookupA t0.last_alert_times k ∨
        (k ∈ (rules.foldl (check_rule_step eid actx now) acc).2 ∧
          lookupA (rules.foldl
            (check_rule_step eid actx now) acc).1.last_alert_times k =
            some now)) := by
  intro rules
  induction rules with
  | nil => intro acc hP hQ; exact ⟨hP, hQ⟩
  | cons r rs ih =>
    intro acc hP hQ
    obtain ⟨hP', hQ'⟩ := check_rule_step_PQ eid actx now t0 acc r hP hQ
    simpa only [List.foldl_cons] using ih _ hP' hQ'

theorem check_fold_R (eid : String) (actx : AlertCtx) (now : ℚ)
    (t0 : ErrorTracker) (cd : ℚ) (hcd0 : 0 < cd) :
    ∀ (rules : List AlertRule) (acc : ErrorTracker × List String),
      (∀ r ∈ rules, r.cooldown_seconds = cd) →
      (∀ k ∈ acc.2, lookupA acc.1.last_alert_times k = some now) →
      (∀ k, lookupA acc.1.last_alert_times k =
          lookupA t0.last_alert_times k ∨
        (k ∈ acc.2 ∧ lookupA acc.1.last_alert_times k = some now)) →
      (∀ k ∈ acc.2, lookupA t0.last_alert_times k = none ∨
        ∃ s, lookupA t0.last_alert_times k = some s ∧ cd ≤ now - s) →
      ∀ k ∈ (rules.foldl (check_rule_step eid actx now) acc).2,
        lookupA t0.last_alert_times k = none ∨
        ∃ s, lookupA t0.last_alert_times k = some s ∧ cd ≤ now - s := by
  intro rules
  induction rules with
  | nil => intro acc _ _ _ hR; exact hR
  | cons r rs ih =>
    intro acc hcd hP hQ hR
    obtain ⟨hP', hQ'⟩ := check_rule_step_PQ eid actx now t0 acc r hP hQ
    have hR' := check_rule_step_R eid actx now t0 cd hcd0 acc r
      (hcd r (by simp)) hQ hR
    simpa only [List.foldl_cons] using
      ih _ (fun r' hr' => hcd r' (by simp [hr'])) hP' hQ' hR'

theorem prune_errors_lat (t : ErrorTracker) :
    (prune_errors t).last_alert_times = t.last_alert_times :=
  (prune_errors_frame t).2.2.2.1

theorem track_error_lat (t : ErrorTracker) (exc : Exc) (ctx : Ctx)
    (st : String) (now : ℚ) :
    (∀ k ∈ (track_error_core t exc ctx st now).2,
      lookupA (track_error t exc ctx st now).last_alert_times k = some now) ∧
    (∀ k, lookupA (track_error t exc ctx st now).last_alert_times k =
        lookupA t.last_alert_times k ∨
      (k ∈ (track_error_core t exc ctx st now).2 ∧
        lookupA (track_error t exc ctx st now).last_alert_times k =
          some now)) := by
  unfold track_error track_error_core check_alert_conditions
  dsimp only
  simp only [prune_errors_lat]
  exact check_fold_PQ _ _ now t _ _ (by simp) (fun k => Or.inl rfl)

theorem track_error_R (t : ErrorTracker) (exc : Exc) (ctx : Ctx)
    (st : String) (now : ℚ) (cd : ℚ) (hcd0 : 0 < cd)
    (hcd : ∀ r ∈ t.alert_rules, r.cooldown_seconds = cd) :
    ∀ k ∈ (track_error_core t exc ctx st now).2,
      lookupA t.last_alert_times k = none ∨
      ∃ s, lookupA t.last_alert_times k = some s ∧ cd ≤ now - s := by
  unfold track_error_core check_alert_conditions
  dsimp only
  exact check_fold_R _ _ now t cd hcd0 _ _ hcd (by simp)
    (fun k => Or.inl rfl) (by simp)

theorem track_error_not_fired (t : ErrorTracker) (exc : Exc) (ctx : Ctx)
    (st : String) (now : ℚ) (k : String)
    (hk : k ∉ (track_error_core t exc ctx st now).2) :
    lookupA (track_error t exc ctx st now).last_alert_times k =
      lookupA t.last_alert_times k := by
  rcases (track_error_lat t exc ctx st now).2 k with h | ⟨h1, -⟩
  · exact h
  · exact absurd h1 hk

theorem runTrack_append (t : ErrorTracker) (l1 l2 : List Call) :
    runTrack t (l1 ++ l2) = runTrack (runTrack t l1) l2 := by
  simp [runTrack, List.foldl_append]

theorem runTrack_alert_rules (calls : List Call) :
    ∀ t : ErrorTracker, (runTrack t calls).alert_rules = t.alert_rules := by
  induction calls with
  | nil => intro t; rfl
  | cons c rest ih =>
    intro t
    exact (ih (track_error t c.exc c.ctx c.stack c.time)).trans
      (track_error_frame t c.exc c.ctx c.stack c.time).2.1

theorem runTrack_lat_persist (calls : List Call) :
    ∀ (t : ErrorTracker) (k : String) (s s0 : ℚ),
      lookupA t.last_alert_times k = some s → s0 ≤ s →
      (∀ c ∈ calls, s0 ≤ c.time) →
      ∃ s', lookupA (runTrack t calls).last_alert_times k = some s' ∧
        s0 ≤ s' := by
  induction calls with
  | nil =>
    intro t k s s0 h hs _
    exact ⟨s, h, hs⟩
  | cons c rest ih =>
    intro t k s s0 h hs hall
    rcases (track_error_lat t c.exc c.ctx c.stack c.time).2 k with hq | ⟨-, hq⟩
    · exact ih _ k s s0 (hq.trans h) hs (fun c' hc' => hall c' (by simp [hc']))
    · exact ih _ k c.time s0 hq (hall c (by simp))
        (fun c' hc' => hall c' (by simp [hc']))

/-- C4: on the default tracker (whose four rules all have
`cooldown_seconds = 300`), a given (rule, error-id) key fires at most once
per rolling 300-second window — two firings of the same key during a
time-ordered run are at least 300 seconds apart — and the last-fired time
of a key is written only by a call in which that key actually fires. -/
theorem claim_C4_cooldown :
    (∀ (pre mid post : List Call) (c1 c2 : Call) (k : String),
      (pre ++ c1 :: mid ++ c2 :: post).Pairwise (fun a b => a.time ≤ b.time) →
      k ∈ firedOf (runTrack (ErrorTracker.init 5000) pre) c1 →
      k ∈ firedOf (runTrack (ErrorTracker.init 5000) (pre ++ c1 :: mid)) c2 →
      300 ≤ c2.time - c1.time) ∧
    (∀ (t : ErrorTracker) (c : Call) (k : String),
      k ∉ firedOf t c →
      lookupA (track_error t c.exc c.ctx c.stack c.time).last_alert_times k =
        lookupA t.last_alert_times k) := by
  constructor
  · intro pre mid post c1 c2 k hpw hf1 hf2
    have hpwL : (pre ++ c1 :: mid).Pairwise (fun a b => a.time ≤ b.time) :=
      (List.pairwise_append.mp hpw).1
    have hpwCM : (c1 :: mid).Pairwise (fun a b => a.time ≤ b.time) :=
      (List.pairwise_append.mp hpwL).2.1
    have hc1mid : ∀ c ∈ mid, c1.time ≤ c.time :=
      (List.pairwise_cons.mp hpwCM).1
    have hT1 := (track_error_lat (runTrack (ErrorTracker.init 5000) pre)
      c1.exc c1.ctx c1.stack c1.time).1 k hf1
    obtain ⟨s', hs', hs'ge⟩ := runTrack_lat_persist mid
      (track_error (runTrack (ErrorTracker.init 5000) pre)
        c1.exc c1.ctx c1.stack c1.time)
      k c1.time c1.time hT1 le_rfl hc1mid
    have hstate : runTrack (ErrorTracker.init 5000) (pre ++ c1 :: mid) =
        runTrack (track_error (runTrack (ErrorTracker.init 5000) pre)
          c1.exc c1.ctx c1.stack c1.time) mid := by
      rw [show pre ++ c1 :: mid = (pre ++ [c1]) ++ mid by simp,
        runTrack_append, runTrack_append]
      rfl
    have hcd : ∀ r ∈ (runTrack (ErrorTracker.init 5000)
        (pre ++ c1 :: mid)).alert_rules, r.cooldown_seconds = 300 := by
      rw [runTrack_alert_rules]
      decide
    have hR := track_error_R (runTrack (ErrorTracker.init 5000)
        (pre ++ c1 :: mid)) c2.exc c2.ctx c2.stack c2.time 300
      (by norm_num) hcd k hf2
    rcases hR with hnone | ⟨s, hsome, hgap⟩
    · rw [hstate, hs'] at hnone
      exact absurd hnone (by simp)
    · rw [hstate, hs'] at hsome
      have hss : s = s' := Option.some.inj hsome.symm
      subst hss
      linarith
  · intro t c k hk
    exact track_error_not_fired t c.exc c.ctx c.stack c.time k hk

/-- C4 witness: a MemoryError fires `critical_system_error` at time 0 and
again at time 300 — exactly one cooldown apart. -/
theorem claim_C4_witness :
    ((([] ++ (⟨⟨"MemoryError", "out of memory"⟩, Ctx.empty, "", 0⟩ : Call) ::
      [] ++ (⟨⟨"MemoryError", "out of memory"⟩, Ctx.empty, "", 300⟩ : Call) ::
      []) : List Call).Pairwise (fun a b => a.time ≤ b.time)) ∧
    "critical_system_error_MemoryError:out of memory:" ∈
      firedOf (runTrack (ErrorTracker.init 5000) [])
        ⟨⟨"MemoryError", "out of memory"⟩, Ctx.empty, "", 0⟩ ∧
    "critical_system_error_MemoryError:out of memory:" ∈
      firedOf (runTrack (ErrorTracker.init 5000)
          ([] ++ (⟨⟨"MemoryError", "out of memory"⟩, Ctx.empty, "", 0⟩ : Call) :: []))
        ⟨⟨"MemoryError", "out of memory"⟩, Ctx.empty, "", 300⟩ ∧
    (300 : ℚ) ≤ 300 - 0 :=
  ⟨by decide, by decide, by decide,
    claim_C4_cooldown.1 [] [] []
      ⟨⟨"MemoryError", "out of memory"⟩, Ctx.empty, "", 0⟩
      ⟨⟨"MemoryError", "out of memory"⟩, Ctx.empty, "", 300⟩
      "critical_system_error_MemoryError:out of memory:"
      (by decide) (by decide) (by decide)⟩

end Europa
